import Mathlib

/-!
Shallow embedding of the economy bot (xastryx/economy-bot).

Sources embedded here:
- src/src/commands/daily.js        (modular /daily handler)
- src/unnamed/part_002             (standalone entry point; its dailyCommand differs)
- src/unnamed/part_003             (/work handler)
- src/unnamed/part_006             (/pay and /rob handlers)
- src/src/commands/shop.js         (shop buy button handler)
- src/src/commands/inventory.js    (inventory sell / use button handlers)
- src/unnamed/part_001             (database helpers: checkCooldown, add/removeFromInventory)
- src/scripts/001_create_economy_tables.sql (data model)

Modelling conventions: JavaScript numbers that hold integers (coins, xp,
prices, amounts) are embedded as Int; fractional quantities (timestamps in
milliseconds, hours, rates, boost values) as Rat. Math.floor(x) on a rational
is Int.floor; Math.random() draws become explicit roll parameters in [0, 1).
Database writes of a handler are the record the handler passes to
updateProfile / addToInventory / removeFromInventory / logTransaction; an
early return (validation rejection) is Except.error, so a rejected request
performs no write. Timestamps are rationals (milliseconds since epoch), and a
cooldown row for the acting (user, command) pair is passed as the optional
expiry timestamp.
-/

namespace EconomyBot

/-- Item effect descriptor: the jsonb `effect` column, dispatched on its
`type` field by the handlers. Types that no handler reads (rob_boost,
daily_boost at top level, cooldown_reset, instant_coins, rob_protection,
xp_boost, streak_protection in the seed data) fall into `otherEffect`. -/
inductive Effect where
  | work_boost (value : ℚ)
  | rob_defense (value : ℚ)
  | cooldown_reduction (command : String) (value : ℚ)
  | consumable (eff : String) (value : ℤ) (command : String)
  | passive (eff : String)
  | otherEffect (ty : String) (value : ℚ)
deriving DecidableEq

/-- A catalog item (public.items): id, name, price, effect. Display-only
columns (description, category, rarity) are omitted. -/
structure Item where
  id : String
  name : String
  price : ℤ
  effect : Option Effect
deriving DecidableEq

/-- One inventory row joined with its catalog item, as getInventory returns
it: the joined item record is the `items` field (`invItem.items` in source). -/
structure InvEntry where
  items : Item
  quantity : ℕ
deriving DecidableEq

/-- A user profile row (public.profiles). Timestamps are rational
milliseconds since epoch. daily_streak is a natural number: the code only
ever writes 0 or previous + 1. -/
structure Profile where
  coins : ℤ
  xp : ℤ
  level : ℤ
  daily_streak : ℕ
  last_daily : Option ℚ
  last_work : Option ℚ
  rob_attempts : ℤ
deriving DecidableEq

/-- The server_settings row. Integer columns as Int, decimal columns as Rat. -/
structure ServerSettings where
  daily_amount : ℤ
  daily_cooldown_hours : ℤ
  work_min_amount : ℤ
  work_max_amount : ℤ
  work_cooldown_hours : ℤ
  rob_success_rate : ℚ
  rob_cooldown_hours : ℤ
  rob_penalty_percent : ℚ
  xp_multiplier : ℚ
deriving DecidableEq

/-- One audit record as logTransaction inserts it (metadata omitted). -/
structure Tx where
  userId : String
  txType : String
  amount : Option ℤ
  targetUserId : Option String
  itemId : Option String
deriving DecidableEq

/-- Result of checkCooldown (part_001 lines 84-105): blocked iff a row exists
whose expires_at is strictly in the future; an expired row is deleted and
reported as not blocking. -/
structure CooldownStatus where
  onCooldown : Bool
  expiresAt : Option ℚ
deriving DecidableEq

/-- checkCooldown(userId, command): the cooldown row for the pair is the
optional expiry timestamp `row`. -/
def checkCooldown (row : Option ℚ) (nowMs : ℚ) : CooldownStatus :=
  match row with
  | none => { onCooldown := false, expiresAt := none }
  | some expiresAt =>
      if nowMs < expiresAt then { onCooldown := true, expiresAt := some expiresAt }
      else { onCooldown := false, expiresAt := none }

/-- The level formula the spec states as the invariant:
level == floor(xp / 1000) + 1. -/
def levelInvariant (p : Profile) : Prop :=
  p.level = Int.floor ((p.xp : ℚ) / 1000) + 1

/-! ### Daily (src/src/commands/daily.js and part_002 dailyCommand) -/

inductive DailyReject where
  | onCooldown
  | alreadyClaimed
deriving DecidableEq

structure DailyOutcome where
  profile : Profile
  cooldownHours : ℤ
  txs : List Tx
deriving DecidableEq

/-- The tail of both daily handlers after the streak is known (daily.js lines
55-83 = part_002 lines 389-415): reward, xp, level, profile write, cooldown
arming, transaction log. -/
def dailyFinish (userId : String) (profile : Profile) (settings : ServerSettings)
    (nowMs : ℚ) (newStreak : ℕ) : DailyOutcome :=
  let baseAmount := settings.daily_amount
  let streakBonus : ℤ := min ((newStreak : ℤ) * 50) 500
  let totalAmount := baseAmount + streakBonus
  let xpGain : ℤ := 10
  let newXP := profile.xp + xpGain
  let newLevel := Int.floor ((newXP : ℚ) / 1000) + 1
  { profile := { profile with
      coins := profile.coins + totalAmount
      xp := newXP
      level := newLevel
      daily_streak := newStreak
      last_daily := some nowMs }
    cooldownHours := settings.daily_cooldown_hours
    txs := [{ userId := userId, txType := "daily", amount := some totalAmount,
              targetUserId := none, itemId := none }] }

/-- The modular /daily handler (daily.js lines 27-83). Rejects when the
cooldown row blocks, and also rejects ("You already claimed your daily
reward!") when last_daily is less than 24 hours ago. -/
def dailyModular (userId : String) (profile : Profile) (settings : ServerSettings)
    (cooldownRow : Option ℚ) (nowMs : ℚ) : Except DailyReject DailyOutcome :=
  let cooldown := checkCooldown cooldownRow nowMs
  if cooldown.onCooldown then Except.error DailyReject.onCooldown
  else
    match profile.last_daily with
    | none => Except.ok (dailyFinish userId profile settings nowMs 0)
    | some lastDaily =>
        let hoursSinceDaily := (nowMs - lastDaily) / 1000 / 60 / 60
        if 24 ≤ hoursSinceDaily ∧ hoursSinceDaily ≤ 48 then
          Except.ok (dailyFinish userId profile settings nowMs (profile.daily_streak + 1))
        else if hoursSinceDaily < 24 then
          Except.error DailyReject.alreadyClaimed
        else
          Except.ok (dailyFinish userId profile settings nowMs 0)

/-- The standalone dailyCommand (part_002 lines 366-415). Identical to the
modular handler except that the branch rejecting claims less than 24 hours
after last_daily is absent: such a claim falls through with streak 0. -/
def dailyStandalone (userId : String) (profile : Profile) (settings : ServerSettings)
    (cooldownRow : Option ℚ) (nowMs : ℚ) : Except DailyReject DailyOutcome :=
  let cooldown := checkCooldown cooldownRow nowMs
  if cooldown.onCooldown then Except.error DailyReject.onCooldown
  else
    match profile.last_daily with
    | none => Except.ok (dailyFinish userId profile settings nowMs 0)
    | some lastDaily =>
        let hoursSinceDaily := (nowMs - lastDaily) / 1000 / 60 / 60
        if 24 ≤ hoursSinceDaily ∧ hoursSinceDaily ≤ 48 then
          Except.ok (dailyFinish userId profile settings nowMs (profile.daily_streak + 1))
        else
          Except.ok (dailyFinish userId profile settings nowMs 0)

/-! ### Work (src/unnamed/part_003 lines 21-95) -/

inductive WorkReject where
  | onCooldown
deriving DecidableEq

structure WorkOutcome where
  profile : Profile
  cooldownHours : ℚ
  baseAmount : ℤ
  boostAmount : ℤ
  totalAmount : ℤ
  bestTool : Option String
  xpGain : ℤ
  txs : List Tx
deriving DecidableEq

/-- The work-boost loop (part_003 lines 48-59): carries (totalBoost,
bestTool), replacing both when an inventory item has a work_boost effect
whose value is strictly greater than the current totalBoost. -/
def workBoostGo (acc : ℚ × Option String) : List InvEntry → ℚ × Option String
  | [] => acc
  | invItem :: rest =>
      match invItem.items.effect with
      | some (Effect.work_boost value) =>
          if acc.1 < value then workBoostGo (value, some invItem.items.name) rest
          else workBoostGo acc rest
      | _ => workBoostGo acc rest

def workBoostScan (inventory : List InvEntry) : ℚ × Option String :=
  workBoostGo (0, none) inventory

/-- The cooldown-reduction loop (part_003 lines 78-84): for every item whose
effect is cooldown_reduction with command "work",
cooldownHours := max(1, cooldownHours - value). -/
def workCooldownGo (cooldownHours : ℚ) : List InvEntry → ℚ
  | [] => cooldownHours
  | invItem :: rest =>
      match invItem.items.effect with
      | some (Effect.cooldown_reduction command value) =>
          if command = "work" then workCooldownGo (max 1 (cooldownHours - value)) rest
          else workCooldownGo cooldownHours rest
      | _ => workCooldownGo cooldownHours rest

/-- The computation and writes of a work action that passed the cooldown gate
(part_003 lines 42-95). baseAmount is the uniform draw from
[work_min_amount, work_max_amount], passed in as a parameter. -/
def workCompute (userId : String) (profile : Profile) (settings : ServerSettings)
    (inventory : List InvEntry) (baseAmount : ℤ) (nowMs : ℚ) : WorkOutcome :=
  let scanned := workBoostScan inventory
  let totalBoost := scanned.1
  let bestTool := scanned.2
  let boostAmount := Int.floor ((baseAmount : ℚ) * totalBoost)
  let totalAmount := baseAmount + boostAmount
  let xpGain := Int.floor ((totalAmount : ℚ) / 10)
  let newXP := profile.xp + xpGain
  let newLevel := Int.floor ((newXP : ℚ) / 1000) + 1
  let cooldownHours := workCooldownGo (settings.work_cooldown_hours : ℚ) inventory
  { profile := { profile with
      coins := profile.coins + totalAmount
      xp := newXP
      level := newLevel
      last_work := some nowMs }
    cooldownHours := cooldownHours
    baseAmount := baseAmount
    boostAmount := boostAmount
    totalAmount := totalAmount
    bestTool := bestTool
    xpGain := xpGain
    txs := [{ userId := userId, txType := "work", amount := some totalAmount,
              targetUserId := none, itemId := none }] }

/-- The /work handler (part_003 lines 21-95). -/
def workExec (userId : String) (profile : Profile) (settings : ServerSettings)
    (inventory : List InvEntry) (baseAmount : ℤ) (cooldownRow : Option ℚ)
    (nowMs : ℚ) : Except WorkReject WorkOutcome :=
  let cooldown := checkCooldown cooldownRow nowMs
  if cooldown.onCooldown then Except.error WorkReject.onCooldown
  else Except.ok (workCompute userId profile settings inventory baseAmount nowMs)

/-! ### Pay (src/unnamed/part_006 lines 17-65) -/

inductive PayReject where
  | selfPayment
  | botRecipient
  | insufficientFunds
deriving DecidableEq

structure PayOutcome where
  senderProfile : Profile
  recipientProfile : Profile
  txs : List Tx
deriving DecidableEq

/-- The /pay handler (part_006 lines 17-65). The slash-command option
declares setMinValue(1) for amount. -/
def payExec (senderId recipientId : String) (recipientIsBot : Bool)
    (senderProfile recipientProfile : Profile) (amount : ℤ) :
    Except PayReject PayOutcome :=
  if senderId = recipientId then Except.error PayReject.selfPayment
  else if recipientIsBot then Except.error PayReject.botRecipient
  else if senderProfile.coins < amount then Except.error PayReject.insufficientFunds
  else Except.ok
    { senderProfile := { senderProfile with coins := senderProfile.coins - amount }
      recipientProfile := { recipientProfile with coins := recipientProfile.coins + amount }
      txs := [{ userId := senderId, txType := "pay", amount := some (-amount),
                targetUserId := some recipientId, itemId := none },
              { userId := recipientId, txType := "pay", amount := some amount,
                targetUserId := some senderId, itemId := none }] }

/-- The state a pay request leaves behind: the two profiles and the appended
audit records. A rejection performs no write and appends nothing. -/
def payApply (senderId recipientId : String) (recipientIsBot : Bool)
    (senderProfile recipientProfile : Profile) (amount : ℤ) :
    Profile × Profile × List Tx :=
  match payExec senderId recipientId recipientIsBot senderProfile recipientProfile amount with
  | Except.error _ => (senderProfile, recipientProfile, [])
  | Except.ok outcome => (outcome.senderProfile, outcome.recipientProfile, outcome.txs)

/-! ### Rob (src/unnamed/part_006 lines 109-247) -/

inductive RobReject where
  | selfTarget
  | botTarget
  | onCooldown
  | targetBelowMinimum
  | robberBelowMinimum
deriving DecidableEq

structure RobOutcome where
  robberProfile : Profile
  targetProfile : Profile
  success : Bool
  targetDefense : ℚ
  actualSuccessRate : ℚ
  cooldownHours : ℤ
  txs : List Tx
deriving DecidableEq

/-- The rob-defense loop (part_006 lines 151-157): maximum rob_defense value
over the inventory of the target. -/
def robDefenseGo (targetDefense : ℚ) : List InvEntry → ℚ
  | [] => targetDefense
  | invItem :: rest =>
      match invItem.items.effect with
      | some (Effect.rob_defense value) => robDefenseGo (max targetDefense value) rest
      | _ => robDefenseGo targetDefense rest

def robDefenseScan (inventory : List InvEntry) : ℚ :=
  robDefenseGo 0 inventory

/-- Resolution of a rob attempt that passed all validation (part_006 lines
150-242). successRoll and percentageRoll are the two Math.random() draws. -/
def robResolve (robberId targetId : String) (robberProfile targetProfile : Profile)
    (settings : ServerSettings) (targetInventory : List InvEntry)
    (successRoll percentageRoll : ℚ) : RobOutcome :=
  let targetDefense := robDefenseScan targetInventory
  let baseSuccessRate := settings.rob_success_rate
  let actualSuccessRate := max 0.1 (baseSuccessRate - targetDefense)
  let success := decide (successRoll < actualSuccessRate)
  let percentage := percentageRoll * 0.2 + 0.1
  let robAmount := Int.floor ((targetProfile.coins : ℚ) * percentage)
  if success then
    { robberProfile := { robberProfile with
        coins := robberProfile.coins + robAmount
        rob_attempts := robberProfile.rob_attempts + 1 }
      targetProfile := { targetProfile with coins := targetProfile.coins - robAmount }
      success := true
      targetDefense := targetDefense
      actualSuccessRate := actualSuccessRate
      cooldownHours := settings.rob_cooldown_hours
      txs := [{ userId := robberId, txType := "rob", amount := some robAmount,
                targetUserId := some targetId, itemId := none }] }
  else
    let penaltyAmount := Int.floor ((robberProfile.coins : ℚ) * settings.rob_penalty_percent)
    { robberProfile := { robberProfile with
        coins := robberProfile.coins - penaltyAmount
        rob_attempts := robberProfile.rob_attempts + 1 }
      targetProfile := targetProfile
      success := false
      targetDefense := targetDefense
      actualSuccessRate := actualSuccessRate
      cooldownHours := settings.rob_cooldown_hours
      txs := [{ userId := robberId, txType := "rob", amount := some (-penaltyAmount),
                targetUserId := some targetId, itemId := none }] }

/-- The /rob handler (part_006 lines 109-247). robberInventory is fetched by
the handler (line 137) alongside targetInventory but the resolution below
only reads targetInventory, exactly as the source does. -/
def robExec (robberId targetId : String) (targetIsBot : Bool)
    (robberProfile targetProfile : Profile) (settings : ServerSettings)
    (robberInventory targetInventory : List InvEntry)
    (cooldownRow : Option ℚ) (nowMs : ℚ) (successRoll percentageRoll : ℚ) :
    Except RobReject RobOutcome :=
  if robberId = targetId then Except.error RobReject.selfTarget
  else if targetIsBot then Except.error RobReject.botTarget
  else
    let cooldown := checkCooldown cooldownRow nowMs
    if cooldown.onCooldown then Except.error RobReject.onCooldown
    else if targetProfile.coins < 500 then Except.error RobReject.targetBelowMinimum
    else if robberProfile.coins < 100 then Except.error RobReject.robberBelowMinimum
    else Except.ok (robResolve robberId targetId robberProfile targetProfile settings
      targetInventory successRoll percentageRoll)

/-! ### Inventory ledger helpers (src/unnamed/part_001 lines 178-228) -/

/-- addToInventory: increment the quantity of an existing (user, item) row or
insert a new row with the given quantity. -/
def addToInventory (inventory : List InvEntry) (item : Item) (quantity : ℕ) :
    List InvEntry :=
  match inventory.find? (fun entry => entry.items.id == item.id) with
  | some _ =>
      inventory.map (fun entry =>
        if entry.items.id == item.id then { entry with quantity := entry.quantity + quantity }
        else entry)
  | none => inventory ++ [{ items := item, quantity := quantity }]

/-- removeFromInventory: delete the row when its quantity is not above the
removed quantity, decrement otherwise. (The source throws when the row is
missing; both callers look the row up first, so the missing case below is
unreachable and returns the inventory unchanged.) -/
def removeFromInventory (inventory : List InvEntry) (itemId : String) (quantity : ℕ) :
    List InvEntry :=
  match inventory.find? (fun entry => entry.items.id == itemId) with
  | none => inventory
  | some existing =>
      if existing.quantity ≤ quantity then
        inventory.filter (fun entry => !(entry.items.id == itemId))
      else
        inventory.map (fun entry =>
          if entry.items.id == itemId then { entry with quantity := entry.quantity - quantity }
          else entry)

/-! ### Shop buy (src/src/commands/shop.js lines 185-237) -/

inductive BuyReject where
  | itemNotFound
  | insufficientFunds
deriving DecidableEq

structure BuyOutcome where
  profile : Profile
  inventory : List InvEntry
  txs : List Tx
deriving DecidableEq

/-- The shop purchase button handler (shop.js lines 185-237). -/
def shopBuy (userId : String) (items : List Item) (itemId : String)
    (profile : Profile) (inventory : List InvEntry) : Except BuyReject BuyOutcome :=
  match items.find? (fun i => i.id == itemId) with
  | none => Except.error BuyReject.itemNotFound
  | some item =>
      if profile.coins < item.price then Except.error BuyReject.insufficientFunds
      else Except.ok
        { profile := { profile with coins := profile.coins - item.price }
          inventory := addToInventory inventory item 1
          txs := [{ userId := userId, txType := "shop_buy", amount := some (-item.price),
                    targetUserId := none, itemId := some itemId }] }

/-! ### Inventory sell and use (src/src/commands/inventory.js lines 105-216) -/

inductive SellReject where
  | itemNotFound
deriving DecidableEq

structure SellOutcome where
  profile : Profile
  inventory : List InvEntry
  sellPrice : ℤ
  txs : List Tx
deriving DecidableEq

/-- The inventory sell button handler (inventory.js lines 122-153): credits
floor(price * 0.6) and removes one unit. The handler looks the inventory row
up by its row id; here rows are keyed by the item id of the joined item. -/
def inventorySell (userId : String) (profile : Profile) (inventory : List InvEntry)
    (itemId : String) : Except SellReject SellOutcome :=
  match inventory.find? (fun entry => entry.items.id == itemId) with
  | none => Except.error SellReject.itemNotFound
  | some invItem =>
      let item := invItem.items
      let sellPrice := Int.floor ((item.price : ℚ) * 0.6)
      Except.ok
        { profile := { profile with coins := profile.coins + sellPrice }
          inventory := removeFromInventory inventory item.id 1
          sellPrice := sellPrice
          txs := [{ userId := userId, txType := "shop_sell", amount := some sellPrice,
                    targetUserId := none, itemId := some item.id }] }

inductive UseReject where
  | itemNotFound
  | notConsumable
deriving DecidableEq

structure UseOutcome where
  profile : Profile
  inventory : List InvEntry
  txs : List Tx
deriving DecidableEq

/-- The inventory use button handler (inventory.js lines 155-210): only
consumables can be used; xp_grant adds the item value to xp and recomputes
level, daily_boost credits 250 coins, cooldown_restore and the default case
only produce text. One unit is always removed. -/
def inventoryUse (userId : String) (profile : Profile) (inventory : List InvEntry)
    (itemId : String) : Except UseReject UseOutcome :=
  match inventory.find? (fun entry => entry.items.id == itemId) with
  | none => Except.error UseReject.itemNotFound
  | some invItem =>
      let item := invItem.items
      match item.effect with
      | some (Effect.consumable eff value _command) =>
          let profileAfter :=
            if eff = "xp_grant" then
              let newXP := profile.xp + value
              let newLevel := Int.floor ((newXP : ℚ) / 1000) + 1
              { profile with xp := newXP, level := newLevel }
            else if eff = "daily_boost" then
              let boostAmount : ℤ := 250
              { profile with coins := profile.coins + boostAmount }
            else profile
          Except.ok
            { profile := profileAfter
              inventory := removeFromInventory inventory item.id 1
              txs := [{ userId := userId, txType := "use_item", amount := none,
                        targetUserId := none, itemId := some item.id }] }
      | _ => Except.error UseReject.notConsumable

/-! ### Spec-side effect resolution (section 4.2 of the spec, stated in the
words of the spec, to be compared with the loops above) -/

/-- The work_boost values held in an inventory. -/
def workBoostValues (inventory : List InvEntry) : List ℚ :=
  inventory.filterMap (fun entry =>
    match entry.items.effect with
    | some (Effect.work_boost value) => some value
    | _ => none)

/-- Best-of-inventory work boost: the maximum work_boost value, 0 when none
is held. -/
def bestWorkBoost (inventory : List InvEntry) : ℚ :=
  (workBoostValues inventory).foldr max 0

/-- The rob_defense values held in an inventory. -/
def robDefenseValues (inventory : List InvEntry) : List ℚ :=
  inventory.filterMap (fun entry =>
    match entry.items.effect with
    | some (Effect.rob_defense value) => some value
    | _ => none)

/-- Best-of-inventory rob defense: the maximum rob_defense value, 0 when none
is held. -/
def bestRobDefense (inventory : List InvEntry) : ℚ :=
  (robDefenseValues inventory).foldr max 0

/-- The cooldown_reduction values for a given command held in an inventory. -/
def cooldownReductions (inventory : List InvEntry) (command : String) : List ℚ :=
  inventory.filterMap (fun entry =>
    match entry.items.effect with
    | some (Effect.cooldown_reduction cmd value) =>
        if cmd = command then some value else none
    | _ => none)

/-- Sum-then-clamp cooldown resolution in the words of the spec: subtract the
summed matching reductions, clamp to a minimum of 1 hour. -/
def specWorkCooldown (workCooldownHours : ℚ) (inventory : List InvEntry) : ℚ :=
  max 1 (workCooldownHours - (cooldownReductions inventory "work").sum)

/-! ### Concrete fixtures used by witnesses and counterexamples (values from
scripts/002 seed data and section 8 of the spec) -/

def sampleProfile : Profile :=
  { coins := 1000, xp := 0, level := 1, daily_streak := 0,
    last_daily := none, last_work := none, rob_attempts := 0 }

def sampleSettings : ServerSettings :=
  { daily_amount := 500, daily_cooldown_hours := 24, work_min_amount := 100,
    work_max_amount := 500, work_cooldown_hours := 4, rob_success_rate := 0.4,
    rob_cooldown_hours := 12, rob_penalty_percent := 0.2, xp_multiplier := 1 }

def fishingRod : Item :=
  { id := "item-rod", name := "Fishing Rod", price := 2500,
    effect := some (Effect.work_boost 0.1) }

def miningPickaxe : Item :=
  { id := "item-pickaxe", name := "Mining Pickaxe", price := 12000,
    effect := some (Effect.work_boost 0.25) }

def guardDog : Item :=
  { id := "item-dog", name := "Guard Dog", price := 8000,
    effect := some (Effect.rob_defense 0.9) }

def timeTool : Item :=
  { id := "item-time", name := "Time Tool", price := 6000,
    effect := some (Effect.cooldown_reduction "work" 1) }

def hourglass : Item :=
  { id := "item-hourglass", name := "Hourglass", price := 9000,
    effect := some (Effect.cooldown_reduction "work" 2) }

/-- Settings row with work_cooldown_hours set to 0 (the column is an
unconstrained int). -/
def zeroWorkCooldownSettings : ServerSettings :=
  { sampleSettings with work_cooldown_hours := 0 }

/-- Settings row with a negative daily_amount (the column is an
unconstrained bigint). -/
def negativeDailySettings : ServerSettings :=
  { sampleSettings with daily_amount := -1 }

/-- A broke profile: zero coins, otherwise like a fresh account. -/
def brokeProfile : Profile :=
  { sampleProfile with coins := 0 }

/-- A profile that claimed its daily exactly 48 hours before timestamp
172800000 ms, carrying a 3-day streak. -/
def streakProfile : Profile :=
  { sampleProfile with last_daily := some 0, daily_streak := 3 }

/-! ## Helper lemmas -/

lemma foldr_max_nonneg (l : List ℚ) : 0 ≤ l.foldr max 0 := by
  induction l with
  | nil => simp
  | cons v t ih => exact le_trans ih (le_max_right v _)

lemma bestWorkBoost_nonneg (inventory : List InvEntry) : 0 ≤ bestWorkBoost inventory :=
  foldr_max_nonneg _

lemma bestRobDefense_nonneg (inventory : List InvEntry) : 0 ≤ bestRobDefense inventory :=
  foldr_max_nonneg _

/-- The work-boost loop computes the maximum work_boost value over the part
of the inventory it has not yet visited, joined with its accumulator. -/
lemma workBoostGo_fst (l : List InvEntry) :
    ∀ acc : ℚ × Option String, 0 ≤ acc.1 →
      (workBoostGo acc l).1 = max acc.1 (bestWorkBoost l) := by
  induction l with
  | nil =>
      intro acc h
      simp [workBoostGo, bestWorkBoost, workBoostValues, max_eq_left h]
  | cons e t ih =>
      intro acc h
      have hbv : bestWorkBoost (e :: t) =
          (match e.items.effect with
           | some (Effect.work_boost v) => max v (bestWorkBoost t)
           | _ => bestWorkBoost t) := by
        cases heff : e.items.effect with
        | none => simp [bestWorkBoost, workBoostValues, List.filterMap_cons, heff]
        | some eff =>
            cases eff <;> simp [bestWorkBoost, workBoostValues, List.filterMap_cons, heff]
      cases heff : e.items.effect with
      | none => rw [hbv]; simp only [heff]
                simpa [workBoostGo, heff] using ih acc h
      | some eff =>
          cases eff with
          | work_boost v =>
              rw [hbv]; simp only [heff]
              by_cases hlt : acc.1 < v
              · have hv : (0:ℚ) ≤ v := le_of_lt (lt_of_le_of_lt h hlt)
                have := ih (v, some e.items.name) hv
                simp only [workBoostGo, heff, if_pos hlt]
                rw [this]
                have h1 : acc.1 ≤ max v (bestWorkBoost t) :=
                  le_trans (le_of_lt hlt) (le_max_left _ _)
                simp [max_eq_right h1]
              · have hv : v ≤ acc.1 := le_of_not_lt hlt
                simp only [workBoostGo, heff, if_neg hlt]
                rw [ih acc h, ← max_assoc, max_eq_left hv]
          | rob_defense v =>
              rw [hbv]; simp only [heff]
              simpa [workBoostGo, heff] using ih acc h
          | cooldown_reduction c v =>
              rw [hbv]; simp only [heff]
              simpa [workBoostGo, heff] using ih acc h
          | consumable a b c =>
              rw [hbv]; simp only [heff]
              simpa [workBoostGo, heff] using ih acc h
          | passive a =>
              rw [hbv]; simp only [heff]
              simpa [workBoostGo, heff] using ih acc h
          | otherEffect a b =>
              rw [hbv]; simp only [heff]
              simpa [workBoostGo, heff] using ih acc h

/-- The implemented work-boost scan equals best-of-inventory work boost. -/
lemma workBoostScan_fst (inventory : List InvEntry) :
    (workBoostScan inventory).1 = bestWorkBoost inventory := by
  have := workBoostGo_fst inventory (0, none) le_rfl
  simpa [workBoostScan, max_eq_right (bestWorkBoost_nonneg inventory)] using this

/-- The rob-defense loop computes the maximum rob_defense value joined with
its accumulator. -/
lemma robDefenseGo_eq (l : List InvEntry) :
    ∀ acc : ℚ, 0 ≤ acc → robDefenseGo acc l = max acc (bestRobDefense l) := by
  induction l with
  | nil =>
      intro acc h
      simp [robDefenseGo, bestRobDefense, robDefenseValues, max_eq_left h]
  | cons e t ih =>
      intro acc h
      have hbv : bestRobDefense (e :: t) =
          (match e.items.effect with
           | some (Effect.rob_defense v) => max v (bestRobDefense t)
           | _ => bestRobDefense t) := by
        cases heff : e.items.effect with
        | none => simp [bestRobDefense, robDefenseValues, List.filterMap_cons, heff]
        | some eff =>
            cases eff <;> simp [bestRobDefense, robDefenseValues, List.filterMap_cons, heff]
      cases heff : e.items.effect with
      | none => rw [hbv]; simp only [heff]
                simpa [robDefenseGo, heff] using ih acc h
      | some eff =>
          cases eff with
          | rob_defense v =>
              rw [hbv]; simp only [heff]
              have hacc : (0:ℚ) ≤ max acc v := le_trans h (le_max_left _ _)
              simp only [robDefenseGo, heff]
              rw [ih (max acc v) hacc, max_assoc]
          | work_boost v =>
              rw [hbv]; simp only [heff]
              simpa [robDefenseGo, heff] using ih acc h
          | cooldown_reduction c v =>
              rw [hbv]; simp only [heff]
              simpa [robDefenseGo, heff] using ih acc h
          | consumable a b c =>
              rw [hbv]; simp only [heff]
              simpa [robDefenseGo, heff] using ih acc h
          | passive a =>
              rw [hbv]; simp only [heff]
              simpa [robDefenseGo, heff] using ih acc h
          | otherEffect a b =>
              rw [hbv]; simp only [heff]
              simpa [robDefenseGo, heff] using ih acc h

/-- The implemented rob-defense scan equals best-of-inventory rob defense. -/
lemma robDefenseScan_eq (inventory : List InvEntry) :
    robDefenseScan inventory = bestRobDefense inventory := by
  have := robDefenseGo_eq inventory 0 le_rfl
  simpa [robDefenseScan, max_eq_right (bestRobDefense_nonneg inventory)] using this

/-- One step of iterative clamping agrees with clamping the full sum. -/
lemma clamp_step (c v s : ℚ) (hv : 0 ≤ v) (hs : 0 ≤ s) :
    max 1 (max 1 (c - v) - s) = max 1 (c - (v + s)) := by
  rcases le_total 1 (c - v) with h | h
  · rw [max_eq_right h, sub_sub]
  · rw [max_eq_left h]
    have h1 : 1 - s ≤ 1 := by linarith
    have h2 : c - (v + s) ≤ 1 := by linarith
    rw [max_eq_left h1, max_eq_left h2]

/-- The iterative cooldown-reduction loop equals sum-then-clamp, provided the
starting duration is at least 1 hour and all matching values are
non-negative. -/
lemma workCooldownGo_eq (l : List InvEntry) :
    ∀ c : ℚ, 1 ≤ c → (∀ v ∈ cooldownReductions l "work", 0 ≤ v) →
      workCooldownGo c l = max 1 (c - (cooldownReductions l "work").sum) := by
  induction l with
  | nil =>
      intro c hc _
      simp [workCooldownGo, cooldownReductions, max_eq_right hc]
  | cons e t ih =>
      intro c hc hvals
      have hred : cooldownReductions (e :: t) "work" =
          (match e.items.effect with
           | some (Effect.cooldown_reduction cmd v) =>
               if cmd = "work" then v :: cooldownReductions t "work"
               else cooldownReductions t "work"
           | _ => cooldownReductions t "work") := by
        cases heff : e.items.effect with
        | none => simp [cooldownReductions, List.filterMap_cons, heff]
        | some eff =>
            cases eff <;>
              simp only [cooldownReductions, List.filterMap_cons, heff] <;>
              first
                | rfl
                | (rename_i cmd v
                   by_cases hcmd : cmd = "work" <;>
                     simp [hcmd, cooldownReductions])
      cases heff : e.items.effect with
      | none =>
          rw [hred]; simp only [heff]
          simp only [workCooldownGo, heff]
          exact ih c hc (by rw [hred] at hvals; simpa [heff] using hvals)
      | some eff =>
          cases eff with
          | cooldown_reduction cmd v =>
              by_cases hcmd : cmd = "work"
              · rw [hred] at hvals ⊢
                simp only [heff, if_pos hcmd] at hvals ⊢
                have hv : 0 ≤ v := hvals v (List.mem_cons_self v _)
                have hrest : ∀ x ∈ cooldownReductions t "work", 0 ≤ x :=
                  fun x hx => hvals x (List.mem_cons_of_mem v hx)
                have hsum : 0 ≤ (cooldownReductions t "work").sum :=
                  List.sum_nonneg hrest
                simp only [workCooldownGo, heff, if_pos hcmd]
                rw [ih (max 1 (c - v)) (le_max_left _ _) hrest]
                rw [List.sum_cons]
                exact clamp_step c v _ hv hsum
              · rw [hred]; simp only [heff, if_neg hcmd]
                simp only [workCooldownGo, heff, if_neg hcmd]
                exact ih c hc (by rw [hred] at hvals; simpa [heff, if_neg hcmd] using hvals)
          | work_boost v =>
              rw [hred]; simp only [heff]
              simp only [workCooldownGo, heff]
              exact ih c hc (by rw [hred] at hvals; simpa [heff] using hvals)
          | rob_defense v =>
              rw [hred]; simp only [heff]
              simp only [workCooldownGo, heff]
              exact ih c hc (by rw [hred] at hvals; simpa [heff] using hvals)
          | consumable a b cc =>
              rw [hred]; simp only [heff]
              simp only [workCooldownGo, heff]
              exact ih c hc (by rw [hred] at hvals; simpa [heff] using hvals)
          | passive a =>
              rw [hred]; simp only [heff]
              simp only [workCooldownGo, heff]
              exact ih c hc (by rw [hred] at hvals; simpa [heff] using hvals)
          | otherEffect a b =>
              rw [hred]; simp only [heff]
              simp only [workCooldownGo, heff]
              exact ih c hc (by rw [hred] at hvals; simpa [heff] using hvals)

/-- A work request that passes the cooldown gate always completes with the
computed outcome. -/
lemma workExec_ok (userId : String) (profile : Profile) (settings : ServerSettings)
    (inventory : List InvEntry) (baseAmount : ℤ) (cooldownRow : Option ℚ) (nowMs : ℚ)
    (hcd : (checkCooldown cooldownRow nowMs).onCooldown = false) :
    workExec userId profile settings inventory baseAmount cooldownRow nowMs =
      Except.ok (workCompute userId profile settings inventory baseAmount nowMs) := by
  simp [workExec, hcd]

/-- A rob request that passes every validation resolves to the computed
outcome. -/
lemma robExec_ok (robberId targetId : String) (targetIsBot : Bool)
    (robberProfile targetProfile : Profile) (settings : ServerSettings)
    (robberInventory targetInventory : List InvEntry)
    (cooldownRow : Option ℚ) (nowMs successRoll percentageRoll : ℚ)
    (hids : robberId ≠ targetId) (hbot : targetIsBot = false)
    (hcd : (checkCooldown cooldownRow nowMs).onCooldown = false)
    (htarget : 500 ≤ targetProfile.coins) (hrobber : 100 ≤ robberProfile.coins) :
    robExec robberId targetId targetIsBot robberProfile targetProfile settings
        robberInventory targetInventory cooldownRow nowMs successRoll percentageRoll =
      Except.ok (robResolve robberId targetId robberProfile targetProfile settings
        targetInventory successRoll percentageRoll) := by
  simp [robExec, hids, hbot, hcd, not_lt.mpr htarget, not_lt.mpr hrobber]

/-- Both branches of the rob resolution expose the same effective success
rate. -/
lemma robResolve_rate (robberId targetId : String)
    (robberProfile targetProfile : Profile) (settings : ServerSettings)
    (targetInventory : List InvEntry) (successRoll percentageRoll : ℚ) :
    (robResolve robberId targetId robberProfile targetProfile settings
      targetInventory successRoll percentageRoll).actualSuccessRate =
      max 0.1 (settings.rob_success_rate - robDefenseScan targetInventory) := by
  by_cases hs : successRoll <
      max 0.1 (settings.rob_success_rate - robDefenseScan targetInventory)
  · simp [robResolve, hs]
  · simp [robResolve, hs]

/-- The rob resolution succeeds exactly when the success roll is below the
effective rate. -/
lemma robResolve_success (robberId targetId : String)
    (robberProfile targetProfile : Profile) (settings : ServerSettings)
    (targetInventory : List InvEntry) (successRoll percentageRoll : ℚ) :
    ((robResolve robberId targetId robberProfile targetProfile settings
        targetInventory successRoll percentageRoll).success = true ↔
      successRoll < max 0.1 (settings.rob_success_rate - robDefenseScan targetInventory)) := by
  by_cases hs : successRoll <
      max 0.1 (settings.rob_success_rate - robDefenseScan targetInventory)
  · simp [robResolve, hs]
  · simp [robResolve, hs]

/-- After adding an item, the inventory has a row for it carrying that very
catalog item, provided every pre-existing row with its id already carried
it. -/
lemma addToInventory_find (inv : List InvEntry) (item : Item) (q : ℕ)
    (hcons : ∀ entry ∈ inv, entry.items.id = item.id → entry.items = item) :
    ∃ entry, (addToInventory inv item q).find? (fun e => e.items.id == item.id) =
        some entry ∧ entry.items = item := by
  unfold addToInventory
  cases hf : inv.find? (fun e => e.items.id == item.id) with
  | none =>
      refine ⟨{ items := item, quantity := q }, ?_, rfl⟩
      rw [List.find?_append, hf]
      simp
  | some e0 =>
      have hp0 := List.find?_some hf
      have hp : (e0.items.id == item.id) = true := by simpa using hp0
      have hmem : e0 ∈ inv := List.mem_of_find?_eq_some hf
      have he0 : e0.items = item := hcons e0 hmem (by simpa using hp)
      refine ⟨{ e0 with quantity := e0.quantity + q }, ?_, by simpa using he0⟩
      rw [List.find?_map]
      have hpf : ((fun e : InvEntry => e.items.id == item.id) ∘
          (fun entry : InvEntry =>
            if entry.items.id == item.id then { entry with quantity := entry.quantity + q }
            else entry)) = fun e : InvEntry => e.items.id == item.id := by
        funext e
        by_cases he : (e.items.id == item.id) = true
        · simp [Function.comp, he]
        · simp [Function.comp, he]
      rw [hpf, hf]
      exact congrArg some (if_pos hp)

/-! ## Claim theorems -/

/-- C6: for every work action and every inventory, the applied boost scalar
is the maximum work_boost value over all held items (0 when none is held),
never their sum; the boost coins are floor(base * best_boost) and the total
payout is base + boost. -/
theorem C6_work_boost_best_of_inventory
    (userId : String) (profile : Profile) (settings : ServerSettings)
    (inventory : List InvEntry) (baseAmount : ℤ) (cooldownRow : Option ℚ) (nowMs : ℚ)
    (hcd : (checkCooldown cooldownRow nowMs).onCooldown = false) :
    ∃ out, workExec userId profile settings inventory baseAmount cooldownRow nowMs =
        Except.ok out ∧
      (workBoostScan inventory).1 = bestWorkBoost inventory ∧
      out.boostAmount = Int.floor ((baseAmount : ℚ) * bestWorkBoost inventory) ∧
      out.totalAmount = baseAmount + out.boostAmount ∧
      out.profile.coins = profile.coins + out.totalAmount := by
  refine ⟨workCompute userId profile settings inventory baseAmount nowMs,
    workExec_ok userId profile settings inventory baseAmount cooldownRow nowMs hcd,
    workBoostScan_fst inventory, ?_, rfl, rfl⟩
  show Int.floor ((baseAmount : ℚ) * (workBoostScan inventory).1) =
    Int.floor ((baseAmount : ℚ) * bestWorkBoost inventory)
  rw [workBoostScan_fst]

/-- C6 witness: an inventory holding work boosts 0.10 and 0.25 with a base
roll of 300; the applied boost is 0.25, not 0.35. -/
theorem C6_witness :
    ((checkCooldown none 0).onCooldown = false) ∧
    (∃ out, workExec "u" sampleProfile sampleSettings
        [{ items := fishingRod, quantity := 1 }, { items := miningPickaxe, quantity := 1 }]
        300 none 0 = Except.ok out ∧
      (workBoostScan [{ items := fishingRod, quantity := 1 },
        { items := miningPickaxe, quantity := 1 }]).1 =
        bestWorkBoost [{ items := fishingRod, quantity := 1 },
          { items := miningPickaxe, quantity := 1 }] ∧
      out.boostAmount = Int.floor ((300 : ℚ) *
        bestWorkBoost [{ items := fishingRod, quantity := 1 },
          { items := miningPickaxe, quantity := 1 }]) ∧
      out.totalAmount = 300 + out.boostAmount ∧
      out.profile.coins = sampleProfile.coins + out.totalAmount) ∧
    bestWorkBoost [{ items := fishingRod, quantity := 1 },
      { items := miningPickaxe, quantity := 1 }] = 0.25 ∧
    (0.25 : ℚ) ≠ 0.1 + 0.25 :=
  ⟨rfl,
   C6_work_boost_best_of_inventory "u" sampleProfile sampleSettings
     [{ items := fishingRod, quantity := 1 }, { items := miningPickaxe, quantity := 1 }]
     300 none 0 rfl,
   by norm_num [bestWorkBoost, workBoostValues, List.filterMap_cons, fishingRod,
     miningPickaxe, max_def],
   by norm_num⟩

/-- C7 (amended): for a work action whose settings arm at least 1 cooldown
hour and whose matching cooldown_reduction values are non-negative, the
per-item iterative update max(1, hours - value) arms exactly the
sum-then-clamp duration max(1, work_cooldown_hours - sum of values). -/
theorem C7_cooldown_reduction_sum_clamp
    (userId : String) (profile : Profile) (settings : ServerSettings)
    (inventory : List InvEntry) (baseAmount : ℤ) (cooldownRow : Option ℚ) (nowMs : ℚ)
    (hcd : (checkCooldown cooldownRow nowMs).onCooldown = false)
    (hW : 1 ≤ settings.work_cooldown_hours)
    (hvals : ∀ v ∈ cooldownReductions inventory "work", 0 ≤ v) :
    ∃ out, workExec userId profile settings inventory baseAmount cooldownRow nowMs =
        Except.ok out ∧
      out.cooldownHours = specWorkCooldown (settings.work_cooldown_hours : ℚ) inventory := by
  refine ⟨workCompute userId profile settings inventory baseAmount nowMs,
    workExec_ok userId profile settings inventory baseAmount cooldownRow nowMs hcd, ?_⟩
  show workCooldownGo (settings.work_cooldown_hours : ℚ) inventory =
    specWorkCooldown (settings.work_cooldown_hours : ℚ) inventory
  rw [specWorkCooldown, workCooldownGo_eq inventory _ (by exact_mod_cast hW) hvals]

/-- C7 witness: default 4-hour cooldown and reduction items of 1 and 2 hours:
the armed duration is max(1, 4 - 3) = 1. -/
theorem C7_witness :
    ((checkCooldown none 0).onCooldown = false) ∧
    (1 : ℤ) ≤ sampleSettings.work_cooldown_hours ∧
    (∀ v ∈ cooldownReductions
        [{ items := timeTool, quantity := 1 }, { items := hourglass, quantity := 1 }]
        "work", 0 ≤ v) ∧
    (∃ out, workExec "u" sampleProfile sampleSettings
        [{ items := timeTool, quantity := 1 }, { items := hourglass, quantity := 1 }]
        300 none 0 = Except.ok out ∧
      out.cooldownHours = specWorkCooldown ((sampleSettings.work_cooldown_hours : ℤ) : ℚ)
        [{ items := timeTool, quantity := 1 }, { items := hourglass, quantity := 1 }]) ∧
    specWorkCooldown ((sampleSettings.work_cooldown_hours : ℤ) : ℚ)
      [{ items := timeTool, quantity := 1 }, { items := hourglass, quantity := 1 }] = 1 :=
  ⟨rfl, by norm_num [sampleSettings],
   by simp [cooldownReductions, List.filterMap_cons, timeTool, hourglass],
   C7_cooldown_reduction_sum_clamp "u" sampleProfile sampleSettings
     [{ items := timeTool, quantity := 1 }, { items := hourglass, quantity := 1 }]
     300 none 0 rfl (by norm_num [sampleSettings])
     (by simp [cooldownReductions, List.filterMap_cons, timeTool, hourglass]),
   by norm_num [specWorkCooldown, cooldownReductions, List.filterMap_cons, timeTool,
     hourglass, sampleSettings, max_def]⟩

/-- C7 counterexample: with work_cooldown_hours = 0 and an inventory holding
no matching reduction item, the code arms 0 hours while the claimed formula
max(1, hours - sum) yields 1, so the claim as stated fails even though every
matching cooldown_reduction value (vacuously) is non-negative. -/
theorem C7_counterexample :
    ∃ out, workExec "u" sampleProfile zeroWorkCooldownSettings [] 300 none 0 =
        Except.ok out ∧
      out.cooldownHours = 0 ∧
      specWorkCooldown ((zeroWorkCooldownSettings.work_cooldown_hours : ℤ) : ℚ) [] = 1 ∧
      (∀ v ∈ cooldownReductions ([] : List InvEntry) "work", 0 ≤ v) ∧
      (0 : ℚ) ≠ 1 := by
  refine ⟨workCompute "u" sampleProfile zeroWorkCooldownSettings [] 300 0, ?_, ?_, ?_, ?_, ?_⟩
  · exact workExec_ok "u" sampleProfile zeroWorkCooldownSettings [] 300 none 0 rfl
  · show workCooldownGo ((zeroWorkCooldownSettings.work_cooldown_hours : ℤ) : ℚ) [] = 0
    norm_num [workCooldownGo, zeroWorkCooldownSettings, sampleSettings]
  · norm_num [specWorkCooldown, cooldownReductions, List.filterMap_cons,
      zeroWorkCooldownSettings, sampleSettings, max_def]
  · norm_num [cooldownReductions]
  · norm_num

/-- C4: for a daily claim that passes the cooldown gate, the persisted streak
is a function of the hours since last_daily: previous + 1 when 24 and 48
inclusive bound it, 0 above 48, and 0 on a first claim. -/
theorem C4_daily_streak_function
    (userId : String) (profile : Profile) (settings : ServerSettings)
    (cooldownRow : Option ℚ) (nowMs : ℚ)
    (hcd : (checkCooldown cooldownRow nowMs).onCooldown = false) :
    (profile.last_daily = none →
      ∃ out, dailyModular userId profile settings cooldownRow nowMs = Except.ok out ∧
        out.profile.daily_streak = 0) ∧
    (∀ lastDaily, profile.last_daily = some lastDaily →
      24 ≤ (nowMs - lastDaily) / 1000 / 60 / 60 →
      (nowMs - lastDaily) / 1000 / 60 / 60 ≤ 48 →
      ∃ out, dailyModular userId profile settings cooldownRow nowMs = Except.ok out ∧
        out.profile.daily_streak = profile.daily_streak + 1) ∧
    (∀ lastDaily, profile.last_daily = some lastDaily →
      48 < (nowMs - lastDaily) / 1000 / 60 / 60 →
      ∃ out, dailyModular userId profile settings cooldownRow nowMs = Except.ok out ∧
        out.profile.daily_streak = 0) := by
  refine ⟨?_, ?_, ?_⟩
  · intro hld
    exact ⟨dailyFinish userId profile settings nowMs 0,
      by simp [dailyModular, hcd, hld], rfl⟩
  · intro lastDaily hld h24 h48
    exact ⟨dailyFinish userId profile settings nowMs (profile.daily_streak + 1),
      by simp [dailyModular, hcd, hld, h24, h48], rfl⟩
  · intro lastDaily hld h48
    have hn24 : ¬ ((nowMs - lastDaily) / 1000 / 60 / 60 < 24) := by linarith
    have hnand : ¬ (24 ≤ (nowMs - lastDaily) / 1000 / 60 / 60 ∧
        (nowMs - lastDaily) / 1000 / 60 / 60 ≤ 48) := by
      rintro ⟨-, h⟩; linarith
    exact ⟨dailyFinish userId profile settings nowMs 0,
      by simp [dailyModular, hcd, hld, hnand, hn24], rfl⟩

/-- C4 witness: claiming exactly 48 hours after the previous claim (the
inclusive upper boundary) continues a 3-day streak to 4. -/
theorem C4_witness :
    ((checkCooldown none 172800000).onCooldown = false) ∧
    streakProfile.last_daily = some 0 ∧
    (24 : ℚ) ≤ (172800000 - 0) / 1000 / 60 / 60 ∧
    ((172800000 : ℚ) - 0) / 1000 / 60 / 60 ≤ 48 ∧
    ∃ out, dailyModular "u" streakProfile sampleSettings none 172800000 = Except.ok out ∧
      out.profile.daily_streak = streakProfile.daily_streak + 1 :=
  ⟨rfl, rfl, by norm_num, by norm_num,
   (C4_daily_streak_function "u" streakProfile sampleSettings none 172800000 rfl).2.1
     0 rfl (by norm_num) (by norm_num)⟩

/-- C3: a pay request whose amount exceeds the coins of the sender is
rejected before any write: both profiles unchanged, no audit record. -/
theorem C3_pay_insufficient_funds_rejected
    (senderId recipientId : String) (recipientIsBot : Bool)
    (senderProfile recipientProfile : Profile) (amount : ℤ)
    (h : senderProfile.coins < amount) :
    payApply senderId recipientId recipientIsBot senderProfile recipientProfile amount =
      (senderProfile, recipientProfile, ([] : List Tx)) ∧
    (payExec senderId recipientId recipientIsBot senderProfile recipientProfile
      amount).isOk = false := by
  by_cases h1 : senderId = recipientId
  · simp [payApply, payExec, h1, Except.isOk, Except.toBool]
  · by_cases h2 : recipientIsBot
    · simp [payApply, payExec, h1, h2, Except.isOk, Except.toBool]
    · simp [payApply, payExec, h1, h2, h, Except.isOk, Except.toBool]

/-- C3 witness: paying 5000 from a balance of 1000 is rejected and changes
nothing. -/
theorem C3_witness :
    sampleProfile.coins < 5000 ∧
    (payApply "alice" "bob" false sampleProfile sampleProfile 5000 =
      (sampleProfile, sampleProfile, ([] : List Tx)) ∧
    (payExec "alice" "bob" false sampleProfile sampleProfile 5000).isOk = false) :=
  ⟨by norm_num [sampleProfile],
   C3_pay_insufficient_funds_rejected "alice" "bob" false sampleProfile sampleProfile 5000
     (by norm_num [sampleProfile])⟩

/-- C9: the daily action is implemented twice and the two implementations
disagree exactly on a non-first claim made less than 24 hours after
last_daily while no cooldown row blocks: the modular handler rejects with
the already-claimed message and writes nothing, the standalone handler
grants the base reward with streak 0 and 10 XP; on every other input the two
produce identical results. -/
theorem C9_daily_two_implementations :
    (∀ (userId : String) (profile : Profile) (settings : ServerSettings)
        (cooldownRow : Option ℚ) (nowMs lastDaily : ℚ),
      profile.last_daily = some lastDaily →
      (nowMs - lastDaily) / 1000 / 60 / 60 < 24 →
      (checkCooldown cooldownRow nowMs).onCooldown = false →
      dailyModular userId profile settings cooldownRow nowMs =
        Except.error DailyReject.alreadyClaimed ∧
      ∃ out, dailyStandalone userId profile settings cooldownRow nowMs = Except.ok out ∧
        out.profile.daily_streak = 0 ∧
        out.profile.coins = profile.coins + settings.daily_amount ∧
        out.profile.xp = profile.xp + 10) ∧
    (∀ (userId : String) (profile : Profile) (settings : ServerSettings)
        (cooldownRow : Option ℚ) (nowMs : ℚ),
      ((checkCooldown cooldownRow nowMs).onCooldown = true ∨
        profile.last_daily = none ∨
        (∀ lastDaily, profile.last_daily = some lastDaily →
          24 ≤ (nowMs - lastDaily) / 1000 / 60 / 60)) →
      dailyModular userId profile settings cooldownRow nowMs =
        dailyStandalone userId profile settings cooldownRow nowMs) := by
  constructor
  · intro userId profile settings cooldownRow nowMs lastDaily hld h24 hcd
    have hnand : ¬ (24 ≤ (nowMs - lastDaily) / 1000 / 60 / 60 ∧
        (nowMs - lastDaily) / 1000 / 60 / 60 ≤ 48) := by
      rintro ⟨h, -⟩; linarith
    refine ⟨by simp [dailyModular, hcd, hld, hnand, h24],
      dailyFinish userId profile settings nowMs 0,
      by simp [dailyStandalone, hcd, hld, hnand], rfl, ?_, rfl⟩
    show profile.coins + (settings.daily_amount + min (((0 : ℕ) : ℤ) * 50) 500) =
      profile.coins + settings.daily_amount
    norm_num
  · intro userId profile settings cooldownRow nowMs h
    rcases h with hcd | hld | hge
    · simp [dailyModular, dailyStandalone, hcd]
    · simp [dailyModular, dailyStandalone, hld]
    · cases hcdv : (checkCooldown cooldownRow nowMs).onCooldown with
      | true => simp [dailyModular, dailyStandalone, hcdv]
      | false =>
          cases hldv : profile.last_daily with
          | none => simp [dailyModular, dailyStandalone, hldv]
          | some lastDaily =>
              have h24 := hge lastDaily hldv
              have hn : ¬ ((nowMs - lastDaily) / 1000 / 60 / 60 < 24) := not_lt.mpr h24
              by_cases hand : 24 ≤ (nowMs - lastDaily) / 1000 / 60 / 60 ∧
                  (nowMs - lastDaily) / 1000 / 60 / 60 ≤ 48
              · simp [dailyModular, dailyStandalone, hcdv, hldv, hand]
              · simp [dailyModular, dailyStandalone, hcdv, hldv, hand, hn]

/-- C5: a rob attempt that passes validation uses the effective success
probability max(0.1, rob_success_rate - defense) where defense is the
maximum rob_defense value over the inventory of the defender; the inventory
of the attacker contributes nothing, and the probability is never below
0.10. -/
theorem C5_rob_success_rate_floor
    (robberId targetId : String) (targetIsBot : Bool)
    (robberProfile targetProfile : Profile) (settings : ServerSettings)
    (robberInventoryA robberInventoryB targetInventory : List InvEntry)
    (cooldownRow : Option ℚ) (nowMs successRoll percentageRoll : ℚ)
    (hids : robberId ≠ targetId) (hbot : targetIsBot = false)
    (hcd : (checkCooldown cooldownRow nowMs).onCooldown = false)
    (htarget : 500 ≤ targetProfile.coins) (hrobber : 100 ≤ robberProfile.coins) :
    robExec robberId targetId targetIsBot robberProfile targetProfile settings
        robberInventoryA targetInventory cooldownRow nowMs successRoll percentageRoll =
      robExec robberId targetId targetIsBot robberProfile targetProfile settings
        robberInventoryB targetInventory cooldownRow nowMs successRoll percentageRoll ∧
    ∃ out, robExec robberId targetId targetIsBot robberProfile targetProfile settings
        robberInventoryA targetInventory cooldownRow nowMs successRoll percentageRoll =
        Except.ok out ∧
      out.actualSuccessRate =
        max 0.1 (settings.rob_success_rate - bestRobDefense targetInventory) ∧
      (0.1 : ℚ) ≤ out.actualSuccessRate ∧
      (out.success = true ↔ successRoll < out.actualSuccessRate) := by
  refine ⟨rfl, robResolve robberId targetId robberProfile targetProfile settings
    targetInventory successRoll percentageRoll,
    robExec_ok robberId targetId targetIsBot robberProfile targetProfile settings
      robberInventoryA targetInventory cooldownRow nowMs successRoll percentageRoll
      hids hbot hcd htarget hrobber, ?_, ?_, ?_⟩
  · rw [robResolve_rate, robDefenseScan_eq]
  · rw [robResolve_rate]
    exact le_max_left _ _
  · rw [robResolve_rate]
    exact robResolve_success robberId targetId robberProfile targetProfile settings
      targetInventory successRoll percentageRoll

/-- C5 witness: base rate 0.40 against a defender holding 0.90 defense gives
effective rate 0.10, the spec example; the attacker inventory differing
(empty against tool-holding) changes nothing. -/
theorem C5_witness :
    ("robber" : String) ≠ "target" ∧ (false = false) ∧
    ((checkCooldown none 0).onCooldown = false) ∧
    (500 : ℤ) ≤ sampleProfile.coins ∧ (100 : ℤ) ≤ sampleProfile.coins ∧
    (robExec "robber" "target" false sampleProfile sampleProfile sampleSettings
        [] [{ items := guardDog, quantity := 1 }] none 0 0.5 0.5 =
      robExec "robber" "target" false sampleProfile sampleProfile sampleSettings
        [{ items := fishingRod, quantity := 1 }] [{ items := guardDog, quantity := 1 }]
        none 0 0.5 0.5 ∧
    ∃ out, robExec "robber" "target" false sampleProfile sampleProfile sampleSettings
        [] [{ items := guardDog, quantity := 1 }] none 0 0.5 0.5 = Except.ok out ∧
      out.actualSuccessRate = max 0.1 (sampleSettings.rob_success_rate -
        bestRobDefense [{ items := guardDog, quantity := 1 }]) ∧
      (0.1 : ℚ) ≤ out.actualSuccessRate ∧
      (out.success = true ↔ (0.5 : ℚ) < out.actualSuccessRate)) ∧
    max 0.1 (sampleSettings.rob_success_rate -
      bestRobDefense [{ items := guardDog, quantity := 1 }]) = 0.1 :=
  ⟨by decide, rfl, rfl, by norm_num [sampleProfile], by norm_num [sampleProfile],
   C5_rob_success_rate_floor "robber" "target" false sampleProfile sampleProfile
     sampleSettings [] [{ items := fishingRod, quantity := 1 }]
     [{ items := guardDog, quantity := 1 }] none 0 0.5 0.5
     (by decide) rfl rfl (by norm_num [sampleProfile]) (by norm_num [sampleProfile]),
   by norm_num [bestRobDefense, robDefenseValues, List.filterMap_cons, guardDog,
     sampleSettings, max_def]⟩

/-- C8: selling one unit always credits exactly floor(price * 0.6), and
buying an item then immediately selling it back at unchanged catalog price
moves net coins by exactly -(price - floor(price * 0.6)), a strict loss for
every positive price. -/
theorem C8_sell_price_round_trip
    (userId : String) (items : List Item) (itemId : String) (item : Item)
    (profile : Profile) (inventory : List InvEntry)
    (hfind : items.find? (fun i => i.id == itemId) = some item)
    (hprice : 0 < item.price)
    (hcoins : item.price ≤ profile.coins)
    (hcons : ∀ entry ∈ inventory, entry.items.id = item.id → entry.items = item) :
    (∀ (p : Profile) (inv : List InvEntry) (entry : InvEntry),
      inv.find? (fun e => e.items.id == item.id) = some entry →
      ∃ out, inventorySell userId p inv item.id = Except.ok out ∧
        out.sellPrice = Int.floor ((entry.items.price : ℚ) * 0.6) ∧
        out.profile.coins = p.coins + out.sellPrice) ∧
    ∃ buyOut sellOut,
      shopBuy userId items itemId profile inventory = Except.ok buyOut ∧
      inventorySell userId buyOut.profile buyOut.inventory item.id = Except.ok sellOut ∧
      sellOut.profile.coins =
        profile.coins - (item.price - Int.floor ((item.price : ℚ) * 0.6)) ∧
      sellOut.profile.coins < profile.coins := by
  have hsell : ∀ (p : Profile) (inv : List InvEntry) (entry : InvEntry),
      inv.find? (fun e => e.items.id == item.id) = some entry →
      ∃ out, inventorySell userId p inv item.id = Except.ok out ∧
        out.sellPrice = Int.floor ((entry.items.price : ℚ) * 0.6) ∧
        out.profile.coins = p.coins + out.sellPrice := by
    intro p inv entry hfind2
    simp only [inventorySell, hfind2]
    exact ⟨_, rfl, rfl, rfl⟩
  refine ⟨hsell, ?_⟩
  have hbuy : ∃ buyOut, shopBuy userId items itemId profile inventory =
      Except.ok buyOut ∧
      buyOut.profile = { profile with coins := profile.coins - item.price } ∧
      buyOut.inventory = addToInventory inventory item 1 := by
    simp only [shopBuy, hfind]
    rw [if_neg (not_lt.mpr hcoins)]
    exact ⟨_, rfl, rfl, rfl⟩
  obtain ⟨buyOut, hbuyEq, hbuyProf, hbuyInv⟩ := hbuy
  obtain ⟨entry, hfind3, hentry⟩ := addToInventory_find inventory item 1 hcons
  rw [← hbuyInv] at hfind3
  obtain ⟨sellOut, hsellEq, hsellPrice, hsellCoins⟩ :=
    hsell buyOut.profile buyOut.inventory entry hfind3
  have hfloorLt : Int.floor ((item.price : ℚ) * 0.6) < item.price := by
    have hp : (0 : ℚ) < (item.price : ℚ) := by exact_mod_cast hprice
    rw [Int.floor_lt]
    nlinarith
  refine ⟨buyOut, sellOut, hbuyEq, hsellEq, ?_, ?_⟩
  · rw [hsellCoins, hsellPrice, hentry, hbuyProf]
    show profile.coins - item.price + Int.floor ((item.price : ℚ) * 0.6) = _
    ring
  · rw [hsellCoins, hsellPrice, hentry, hbuyProf]
    show profile.coins - item.price + Int.floor ((item.price : ℚ) * 0.6) < profile.coins
    omega

/-- C8 witness: buying the 2500-coin rod with 2500 coins and selling it back
nets 1500, a loss of exactly 1000. -/
theorem C8_witness :
    ([fishingRod].find? (fun i => i.id == fishingRod.id) = some fishingRod) ∧
    (0 : ℤ) < fishingRod.price ∧ fishingRod.price ≤ 2500 ∧
    ((∀ (p : Profile) (inv : List InvEntry) (entry : InvEntry),
      inv.find? (fun e => e.items.id == fishingRod.id) = some entry →
      ∃ out, inventorySell "u" p inv fishingRod.id = Except.ok out ∧
        out.sellPrice = Int.floor ((entry.items.price : ℚ) * 0.6) ∧
        out.profile.coins = p.coins + out.sellPrice) ∧
    ∃ buyOut sellOut,
      shopBuy "u" [fishingRod] fishingRod.id
        { sampleProfile with coins := 2500 } [] = Except.ok buyOut ∧
      inventorySell "u" buyOut.profile buyOut.inventory fishingRod.id =
        Except.ok sellOut ∧
      sellOut.profile.coins = ({ sampleProfile with coins := 2500 } : Profile).coins -
        (fishingRod.price - Int.floor ((fishingRod.price : ℚ) * 0.6)) ∧
      sellOut.profile.coins < ({ sampleProfile with coins := 2500 } : Profile).coins) ∧
    Int.floor ((fishingRod.price : ℚ) * 0.6) = 1500 :=
  ⟨by simp [fishingRod], by norm_num [fishingRod], by norm_num [fishingRod],
   C8_sell_price_round_trip "u" [fishingRod] fishingRod.id fishingRod
     { sampleProfile with coins := 2500 } []
     (by simp [fishingRod]) (by norm_num [fishingRod]) (by norm_num [fishingRod])
     (by intro entry h; cases h),
   by norm_num [fishingRod]⟩

/-! ## Inversion lemmas: what an accepted request necessarily wrote -/

lemma dailyModular_ok_inv (userId : String) (profile : Profile)
    (settings : ServerSettings) (cooldownRow : Option ℚ) (nowMs : ℚ)
    (out : DailyOutcome)
    (h : dailyModular userId profile settings cooldownRow nowMs = Except.ok out) :
    ∃ streak, out = dailyFinish userId profile settings nowMs streak := by
  simp only [dailyModular] at h
  split at h
  · exact absurd h (by simp)
  · split at h
    · exact ⟨0, (Except.ok.inj h).symm⟩
    · split at h
      · exact ⟨_, (Except.ok.inj h).symm⟩
      · split at h
        · exact absurd h (by simp)
        · exact ⟨0, (Except.ok.inj h).symm⟩

lemma workExec_ok_inv (userId : String) (profile : Profile) (settings : ServerSettings)
    (inventory : List InvEntry) (baseAmount : ℤ) (cooldownRow : Option ℚ) (nowMs : ℚ)
    (out : WorkOutcome)
    (h : workExec userId profile settings inventory baseAmount cooldownRow nowMs =
      Except.ok out) :
    out = workCompute userId profile settings inventory baseAmount nowMs := by
  simp only [workExec] at h
  split at h
  · exact absurd h (by simp)
  · exact (Except.ok.inj h).symm

lemma payExec_ok_inv (senderId recipientId : String) (recipientIsBot : Bool)
    (senderProfile recipientProfile : Profile) (amount : ℤ) (out : PayOutcome)
    (h : payExec senderId recipientId recipientIsBot senderProfile recipientProfile
      amount = Except.ok out) :
    amount ≤ senderProfile.coins ∧
    out.senderProfile = { senderProfile with coins := senderProfile.coins - amount } ∧
    out.recipientProfile =
      { recipientProfile with coins := recipientProfile.coins + amount } := by
  simp only [payExec] at h
  split at h
  · exact absurd h (by simp)
  · split at h
    · exact absurd h (by simp)
    · split at h
      · exact absurd h (by simp)
      · rename_i hc
        have hout := (Except.ok.inj h).symm
        subst hout
        exact ⟨not_lt.mp hc, rfl, rfl⟩

lemma robExec_ok_inv (robberId targetId : String) (targetIsBot : Bool)
    (robberProfile targetProfile : Profile) (settings : ServerSettings)
    (robberInventory targetInventory : List InvEntry)
    (cooldownRow : Option ℚ) (nowMs successRoll percentageRoll : ℚ) (out : RobOutcome)
    (h : robExec robberId targetId targetIsBot robberProfile targetProfile settings
      robberInventory targetInventory cooldownRow nowMs successRoll percentageRoll =
      Except.ok out) :
    500 ≤ targetProfile.coins ∧ 100 ≤ robberProfile.coins ∧
    out = robResolve robberId targetId robberProfile targetProfile settings
      targetInventory successRoll percentageRoll := by
  simp only [robExec] at h
  split at h
  · exact absurd h (by simp)
  · split at h
    · exact absurd h (by simp)
    · split at h
      · exact absurd h (by simp)
      · split at h
        · exact absurd h (by simp)
        · split at h
          · exact absurd h (by simp)
          · rename_i htarget hrobber
            exact ⟨not_lt.mp htarget, not_lt.mp hrobber, (Except.ok.inj h).symm⟩

lemma shopBuy_ok_inv (userId : String) (items : List Item) (itemId : String)
    (profile : Profile) (inventory : List InvEntry) (out : BuyOutcome)
    (h : shopBuy userId items itemId profile inventory = Except.ok out) :
    ∃ item, items.find? (fun i => i.id == itemId) = some item ∧
      item.price ≤ profile.coins ∧
      out.profile = { profile with coins := profile.coins - item.price } ∧
      out.inventory = addToInventory inventory item 1 := by
  simp only [shopBuy] at h
  split at h
  · exact absurd h (by simp)
  · rename_i item hfind
    split at h
    · exact absurd h (by simp)
    · rename_i hc
      have hout := (Except.ok.inj h).symm
      subst hout
      exact ⟨item, hfind, not_lt.mp hc, rfl, rfl⟩

lemma inventorySell_ok_inv (userId : String) (profile : Profile)
    (inventory : List InvEntry) (itemId : String) (out : SellOutcome)
    (h : inventorySell userId profile inventory itemId = Except.ok out) :
    ∃ entry, inventory.find? (fun e => e.items.id == itemId) = some entry ∧
      out.sellPrice = Int.floor ((entry.items.price : ℚ) * 0.6) ∧
      out.profile =
        { profile with coins := profile.coins + Int.floor ((entry.items.price : ℚ) * 0.6) } := by
  simp only [inventorySell] at h
  split at h
  · exact absurd h (by simp)
  · rename_i entry hfind
    have hout := (Except.ok.inj h).symm
    subst hout
    exact ⟨entry, hfind, rfl, rfl⟩

lemma inventoryUse_ok_inv (userId : String) (profile : Profile)
    (inventory : List InvEntry) (itemId : String) (out : UseOutcome)
    (h : inventoryUse userId profile inventory itemId = Except.ok out) :
    ∃ entry eff value command,
      inventory.find? (fun e => e.items.id == itemId) = some entry ∧
      entry.items.effect = some (Effect.consumable eff value command) ∧
      out.profile =
        (if eff = "xp_grant" then
          { profile with
              xp := profile.xp + value
              level := Int.floor (((profile.xp + value : ℤ) : ℚ) / 1000) + 1 }
        else if eff = "daily_boost" then
          { profile with coins := profile.coins + 250 }
        else profile) := by
  simp only [inventoryUse] at h
  split at h
  · exact absurd h (by simp)
  · rename_i entry hfind
    split at h
    · rename_i eff value command heff
      have hout := (Except.ok.inj h).symm
      subst hout
      exact ⟨entry, eff, value, command, hfind, heff, rfl⟩
    · exact absurd h (by simp)

/-- Both branches of the rob resolution leave xp and level of both parties
untouched. -/
lemma robResolve_preserves_xp_level (robberId targetId : String)
    (robberProfile targetProfile : Profile) (settings : ServerSettings)
    (targetInventory : List InvEntry) (successRoll percentageRoll : ℚ) :
    (robResolve robberId targetId robberProfile targetProfile settings
      targetInventory successRoll percentageRoll).robberProfile.xp = robberProfile.xp ∧
    (robResolve robberId targetId robberProfile targetProfile settings
      targetInventory successRoll percentageRoll).robberProfile.level = robberProfile.level ∧
    (robResolve robberId targetId robberProfile targetProfile settings
      targetInventory successRoll percentageRoll).targetProfile.xp = targetProfile.xp ∧
    (robResolve robberId targetId robberProfile targetProfile settings
      targetInventory successRoll percentageRoll).targetProfile.level = targetProfile.level := by
  by_cases hs : successRoll <
      max 0.1 (settings.rob_success_rate - robDefenseScan targetInventory)
  · simp [robResolve, hs]
  · simp [robResolve, hs]

lemma floor_mul_le (c : ℤ) (r : ℚ) (hc : 0 ≤ c) (hr : r ≤ 1) :
    Int.floor ((c : ℚ) * r) ≤ c := by
  have hcq : (0 : ℚ) ≤ (c : ℚ) := by exact_mod_cast hc
  calc Int.floor ((c : ℚ) * r) ≤ Int.floor ((c : ℚ)) := Int.floor_le_floor (by nlinarith)
  _ = c := Int.floor_intCast c

lemma floor_mul_nonneg (c : ℤ) (r : ℚ) (hc : 0 ≤ c) (hr : 0 ≤ r) :
    0 ≤ Int.floor ((c : ℚ) * r) := by
  have hcq : (0 : ℚ) ≤ (c : ℚ) := by exact_mod_cast hc
  exact Int.floor_nonneg.mpr (by positivity)

/-- Neither branch of the rob resolution drives a balance negative, as long
as the penalty rate is at most 1 and the percentage roll lies in [0, 1). -/
lemma robResolve_coins_nonneg (robberId targetId : String)
    (robberProfile targetProfile : Profile) (settings : ServerSettings)
    (targetInventory : List InvEntry) (successRoll percentageRoll : ℚ)
    (hrobber : 0 ≤ robberProfile.coins) (htarget : 0 ≤ targetProfile.coins)
    (hpp : settings.rob_penalty_percent ≤ 1)
    (hp0 : 0 ≤ percentageRoll) (hp1 : percentageRoll < 1) :
    0 ≤ (robResolve robberId targetId robberProfile targetProfile settings
      targetInventory successRoll percentageRoll).robberProfile.coins ∧
    0 ≤ (robResolve robberId targetId robberProfile targetProfile settings
      targetInventory successRoll percentageRoll).targetProfile.coins := by
  have hperc0 : (0 : ℚ) ≤ percentageRoll * 0.2 + 0.1 := by nlinarith
  have hperc1 : percentageRoll * 0.2 + 0.1 ≤ 1 := by nlinarith
  have hamt0 : 0 ≤ Int.floor ((targetProfile.coins : ℚ) * (percentageRoll * 0.2 + 0.1)) :=
    floor_mul_nonneg _ _ htarget hperc0
  have hamtle : Int.floor ((targetProfile.coins : ℚ) * (percentageRoll * 0.2 + 0.1)) ≤
      targetProfile.coins := floor_mul_le _ _ htarget hperc1
  have hpenle : Int.floor ((robberProfile.coins : ℚ) * settings.rob_penalty_percent) ≤
      robberProfile.coins := floor_mul_le _ _ hrobber hpp
  by_cases hs : successRoll <
      max 0.1 (settings.rob_success_rate - robDefenseScan targetInventory)
  · constructor
    · simp only [robResolve, hs]
      simp only [decide_eq_true_eq, if_pos hs]
      show 0 ≤ robberProfile.coins +
        Int.floor ((targetProfile.coins : ℚ) * (percentageRoll * 0.2 + 0.1))
      omega
    · simp only [robResolve, hs]
      simp only [decide_eq_true_eq, if_pos hs]
      show 0 ≤ targetProfile.coins -
        Int.floor ((targetProfile.coins : ℚ) * (percentageRoll * 0.2 + 0.1))
      omega
  · constructor
    · simp only [robResolve, hs]
      simp only [decide_eq_true_eq, if_neg hs]
      show 0 ≤ robberProfile.coins -
        Int.floor ((robberProfile.coins : ℚ) * settings.rob_penalty_percent)
      omega
    · simp only [robResolve, hs]
      simp only [decide_eq_true_eq, if_neg hs]
      exact htarget

/-- C1: every write path that changes xp recomputes and persists
level = floor(xp / 1000) + 1 in the same update (daily, work, use), and
every operation that leaves xp unchanged leaves level unchanged (pay, rob,
buy, sell), so the level invariant is preserved by every operation. -/
theorem C1_level_invariant_every_write :
    (∀ (userId : String) (profile : Profile) (settings : ServerSettings)
        (cooldownRow : Option ℚ) (nowMs : ℚ) (out : DailyOutcome),
      dailyModular userId profile settings cooldownRow nowMs = Except.ok out →
      levelInvariant out.profile) ∧
    (∀ (userId : String) (profile : Profile) (settings : ServerSettings)
        (inventory : List InvEntry) (baseAmount : ℤ) (cooldownRow : Option ℚ)
        (nowMs : ℚ) (out : WorkOutcome),
      workExec userId profile settings inventory baseAmount cooldownRow nowMs =
        Except.ok out → levelInvariant out.profile) ∧
    (∀ (senderId recipientId : String) (recipientIsBot : Bool)
        (senderProfile recipientProfile : Profile) (amount : ℤ) (out : PayOutcome),
      payExec senderId recipientId recipientIsBot senderProfile recipientProfile
        amount = Except.ok out →
      (out.senderProfile.xp = senderProfile.xp ∧
        out.senderProfile.level = senderProfile.level ∧
        out.recipientProfile.xp = recipientProfile.xp ∧
        out.recipientProfile.level = recipientProfile.level) ∧
      (levelInvariant senderProfile → levelInvariant out.senderProfile) ∧
      (levelInvariant recipientProfile → levelInvariant out.recipientProfile)) ∧
    (∀ (robberId targetId : String) (targetIsBot : Bool)
        (robberProfile targetProfile : Profile) (settings : ServerSettings)
        (robberInventory targetInventory : List InvEntry) (cooldownRow : Option ℚ)
        (nowMs successRoll percentageRoll : ℚ) (out : RobOutcome),
      robExec robberId targetId targetIsBot robberProfile targetProfile settings
        robberInventory targetInventory cooldownRow nowMs successRoll percentageRoll =
        Except.ok out →
      (out.robberProfile.xp = robberProfile.xp ∧
        out.robberProfile.level = robberProfile.level ∧
        out.targetProfile.xp = targetProfile.xp ∧
        out.targetProfile.level = targetProfile.level) ∧
      (levelInvariant robberProfile → levelInvariant out.robberProfile) ∧
      (levelInvariant targetProfile → levelInvariant out.targetProfile)) ∧
    (∀ (userId : String) (items : List Item) (itemId : String) (profile : Profile)
        (inventory : List InvEntry) (out : BuyOutcome),
      shopBuy userId items itemId profile inventory = Except.ok out →
      (out.profile.xp = profile.xp ∧ out.profile.level = profile.level) ∧
      (levelInvariant profile → levelInvariant out.profile)) ∧
    (∀ (userId : String) (profile : Profile) (inventory : List InvEntry)
        (itemId : String) (out : SellOutcome),
      inventorySell userId profile inventory itemId = Except.ok out →
      (out.profile.xp = profile.xp ∧ out.profile.level = profile.level) ∧
      (levelInvariant profile → levelInvariant out.profile)) ∧
    (∀ (userId : String) (profile : Profile) (inventory : List InvEntry)
        (itemId : String) (out : UseOutcome),
      levelInvariant profile →
      inventoryUse userId profile inventory itemId = Except.ok out →
      levelInvariant out.profile) := by
  refine ⟨?_, ?_, ?_, ?_, ?_, ?_, ?_⟩
  · intro userId profile settings cooldownRow nowMs out h
    obtain ⟨streak, rfl⟩ :=
      dailyModular_ok_inv userId profile settings cooldownRow nowMs out h
    rfl
  · intro userId profile settings inventory baseAmount cooldownRow nowMs out h
    rw [workExec_ok_inv userId profile settings inventory baseAmount cooldownRow
      nowMs out h]
    rfl
  · intro senderId recipientId recipientIsBot senderProfile recipientProfile amount out h
    obtain ⟨-, hs, hr⟩ := payExec_ok_inv senderId recipientId recipientIsBot
      senderProfile recipientProfile amount out h
    rw [hs, hr]
    exact ⟨⟨rfl, rfl, rfl, rfl⟩, fun hinv => hinv, fun hinv => hinv⟩
  · intro robberId targetId targetIsBot robberProfile targetProfile settings
      robberInventory targetInventory cooldownRow nowMs successRoll percentageRoll out h
    obtain ⟨-, -, rfl⟩ := robExec_ok_inv robberId targetId targetIsBot robberProfile
      targetProfile settings robberInventory targetInventory cooldownRow nowMs
      successRoll percentageRoll out h
    obtain ⟨h1, h2, h3, h4⟩ := robResolve_preserves_xp_level robberId targetId
      robberProfile targetProfile settings targetInventory successRoll percentageRoll
    refine ⟨⟨h1, h2, h3, h4⟩, ?_, ?_⟩
    · intro hinv
      unfold levelInvariant at hinv ⊢
      rw [h1, h2, hinv]
    · intro hinv
      unfold levelInvariant at hinv ⊢
      rw [h3, h4, hinv]
  · intro userId items itemId profile inventory out h
    obtain ⟨item, -, -, hprof, -⟩ :=
      shopBuy_ok_inv userId items itemId profile inventory out h
    rw [hprof]
    exact ⟨⟨rfl, rfl⟩, fun hinv => hinv⟩
  · intro userId profile inventory itemId out h
    obtain ⟨entry, -, -, hprof⟩ :=
      inventorySell_ok_inv userId profile inventory itemId out h
    rw [hprof]
    exact ⟨⟨rfl, rfl⟩, fun hinv => hinv⟩
  · intro userId profile inventory itemId out hinv h
    obtain ⟨entry, eff, value, command, -, -, hprof⟩ :=
      inventoryUse_ok_inv userId profile inventory itemId out h
    rw [hprof]
    by_cases hxp : eff = "xp_grant"
    · rw [if_pos hxp]
      rfl
    · rw [if_neg hxp]
      by_cases hdb : eff = "daily_boost"
      · rw [if_pos hdb]
        exact hinv
      · rw [if_neg hdb]
        exact hinv

/-- C2 counterexample: the claim as stated quantifies over settings yet only
constrains rob_penalty_percent; with daily_amount = -1 (the bigint column is
unconstrained) a daily claim from a zero balance, with every account balance
non-negative and rob_penalty_percent at most 1, leaves the balance at -1. -/
theorem C2_counterexample :
    (0 : ℤ) ≤ brokeProfile.coins ∧
    negativeDailySettings.rob_penalty_percent ≤ 1 ∧
    ∃ out, dailyModular "u" brokeProfile negativeDailySettings none 0 = Except.ok out ∧
      out.profile.coins < 0 := by
  refine ⟨by norm_num [brokeProfile, sampleProfile],
    by norm_num [negativeDailySettings, sampleSettings],
    dailyFinish "u" brokeProfile negativeDailySettings 0 0, ?_, ?_⟩
  · simp [dailyModular, checkCooldown, brokeProfile, sampleProfile]
  · show brokeProfile.coins +
      (negativeDailySettings.daily_amount + min (((0 : ℕ) : ℤ) * 50) 500) < 0
    norm_num [brokeProfile, sampleProfile, negativeDailySettings, sampleSettings]

/-- C2 (amended): no operation leaves a balance negative, provided the
credited quantities are themselves non-negative where the operation credits
one unconditionally: daily needs daily_amount at least 0, work a non-negative
base draw, sell non-negative catalog prices, pay a positive amount (the
command option enforces a minimum of 1); rob additionally needs
rob_penalty_percent at most 1 and its percentage roll in [0, 1), and buy and
the consumable branches need nothing beyond their own guards. -/
theorem C2_coins_never_negative :
    (∀ (userId : String) (profile : Profile) (settings : ServerSettings)
        (cooldownRow : Option ℚ) (nowMs : ℚ) (out : DailyOutcome),
      0 ≤ profile.coins → 0 ≤ settings.daily_amount →
      dailyModular userId profile settings cooldownRow nowMs = Except.ok out →
      0 ≤ out.profile.coins) ∧
    (∀ (userId : String) (profile : Profile) (settings : ServerSettings)
        (inventory : List InvEntry) (baseAmount : ℤ) (cooldownRow : Option ℚ)
        (nowMs : ℚ) (out : WorkOutcome),
      0 ≤ profile.coins → 0 ≤ baseAmount →
      workExec userId profile settings inventory baseAmount cooldownRow nowMs =
        Except.ok out →
      0 ≤ out.profile.coins) ∧
    (∀ (senderId recipientId : String) (recipientIsBot : Bool)
        (senderProfile recipientProfile : Profile) (amount : ℤ) (out : PayOutcome),
      0 ≤ recipientProfile.coins → 1 ≤ amount →
      payExec senderId recipientId recipientIsBot senderProfile recipientProfile
        amount = Except.ok out →
      0 ≤ out.senderProfile.coins ∧ 0 ≤ out.recipientProfile.coins) ∧
    (∀ (robberId targetId : String) (targetIsBot : Bool)
        (robberProfile targetProfile : Profile) (settings : ServerSettings)
        (robberInventory targetInventory : List InvEntry) (cooldownRow : Option ℚ)
        (nowMs successRoll percentageRoll : ℚ) (out : RobOutcome),
      settings.rob_penalty_percent ≤ 1 →
      0 ≤ percentageRoll → percentageRoll < 1 →
      robExec robberId targetId targetIsBot robberProfile targetProfile settings
        robberInventory targetInventory cooldownRow nowMs successRoll percentageRoll =
        Except.ok out →
      0 ≤ out.robberProfile.coins ∧ 0 ≤ out.targetProfile.coins) ∧
    (∀ (userId : String) (items : List Item) (itemId : String) (profile : Profile)
        (inventory : List InvEntry) (out : BuyOutcome),
      shopBuy userId items itemId profile inventory = Except.ok out →
      0 ≤ out.profile.coins) ∧
    (∀ (userId : String) (profile : Profile) (inventory : List InvEntry)
        (itemId : String) (out : SellOutcome),
      0 ≤ profile.coins → (∀ entry ∈ inventory, 0 ≤ entry.items.price) →
      inventorySell userId profile inventory itemId = Except.ok out →
      0 ≤ out.profile.coins) ∧
    (∀ (userId : String) (profile : Profile) (inventory : List InvEntry)
        (itemId : String) (out : UseOutcome),
      0 ≤ profile.coins →
      inventoryUse userId profile inventory itemId = Except.ok out →
      0 ≤ out.profile.coins) := by
  refine ⟨?_, ?_, ?_, ?_, ?_, ?_, ?_⟩
  · intro userId profile settings cooldownRow nowMs out hc hda h
    obtain ⟨streak, rfl⟩ :=
      dailyModular_ok_inv userId profile settings cooldownRow nowMs out h
    show 0 ≤ profile.coins +
      (settings.daily_amount + min ((streak : ℤ) * 50) 500)
    have hbonus : (0 : ℤ) ≤ min ((streak : ℤ) * 50) 500 :=
      le_min (by positivity) (by norm_num)
    omega
  · intro userId profile settings inventory baseAmount cooldownRow nowMs out hc hb h
    rw [workExec_ok_inv userId profile settings inventory baseAmount cooldownRow
      nowMs out h]
    show 0 ≤ profile.coins + (baseAmount +
      Int.floor ((baseAmount : ℚ) * (workBoostScan inventory).1))
    have hboost : 0 ≤ (workBoostScan inventory).1 := by
      rw [workBoostScan_fst]
      exact bestWorkBoost_nonneg inventory
    have hfloor : 0 ≤ Int.floor ((baseAmount : ℚ) * (workBoostScan inventory).1) :=
      floor_mul_nonneg _ _ hb hboost
    omega
  · intro senderId recipientId recipientIsBot senderProfile recipientProfile amount
      out hrc ha h
    obtain ⟨hle, hs, hr⟩ := payExec_ok_inv senderId recipientId recipientIsBot
      senderProfile recipientProfile amount out h
    rw [hs, hr]
    constructor
    · show 0 ≤ senderProfile.coins - amount
      omega
    · show 0 ≤ recipientProfile.coins + amount
      omega
  · intro robberId targetId targetIsBot robberProfile targetProfile settings
      robberInventory targetInventory cooldownRow nowMs successRoll percentageRoll
      out hpp hp0 hp1 h
    obtain ⟨htarget, hrobber, rfl⟩ := robExec_ok_inv robberId targetId targetIsBot
      robberProfile targetProfile settings robberInventory targetInventory
      cooldownRow nowMs successRoll percentageRoll out h
    exact robResolve_coins_nonneg robberId targetId robberProfile targetProfile
      settings targetInventory successRoll percentageRoll (by omega) (by omega)
      hpp hp0 hp1
  · intro userId items itemId profile inventory out h
    obtain ⟨item, -, hle, hprof, -⟩ :=
      shopBuy_ok_inv userId items itemId profile inventory out h
    rw [hprof]
    show 0 ≤ profile.coins - item.price
    omega
  · intro userId profile inventory itemId out hc hprices h
    obtain ⟨entry, hfind, -, hprof⟩ :=
      inventorySell_ok_inv userId profile inventory itemId out h
    have hmem : entry ∈ inventory := List.mem_of_find?_eq_some hfind
    have hprice : 0 ≤ entry.items.price := hprices entry hmem
    have hfloor : 0 ≤ Int.floor ((entry.items.price : ℚ) * 0.6) :=
      floor_mul_nonneg _ _ hprice (by norm_num)
    rw [hprof]
    show 0 ≤ profile.coins + Int.floor ((entry.items.price : ℚ) * 0.6)
    omega
  · intro userId profile inventory itemId out hc h
    obtain ⟨entry, eff, value, command, -, -, hprof⟩ :=
      inventoryUse_ok_inv userId profile inventory itemId out h
    rw [hprof]
    by_cases hxp : eff = "xp_grant"
    · rw [if_pos hxp]
      exact hc
    · rw [if_neg hxp]
      by_cases hdb : eff = "daily_boost"
      · rw [if_pos hdb]
        show 0 ≤ profile.coins + 250
        omega
      · rw [if_neg hdb]
        exact hc

/-- C10: the xp_multiplier settings column is stored but never read: every
settings-consuming operation is invariant under changing it, and the XP
grants are the hard-coded ones: daily always 10, work floor(total / 10), an
xp_grant consumable its item value. -/
theorem C10_xp_multiplier_never_read :
    (∀ (userId : String) (profile : Profile) (settings : ServerSettings)
        (cooldownRow : Option ℚ) (nowMs m : ℚ),
      dailyModular userId profile { settings with xp_multiplier := m }
        cooldownRow nowMs = dailyModular userId profile settings cooldownRow nowMs) ∧
    (∀ (userId : String) (profile : Profile) (settings : ServerSettings)
        (cooldownRow : Option ℚ) (nowMs m : ℚ),
      dailyStandalone userId profile { settings with xp_multiplier := m }
        cooldownRow nowMs = dailyStandalone userId profile settings cooldownRow nowMs) ∧
    (∀ (userId : String) (profile : Profile) (settings : ServerSettings)
        (inventory : List InvEntry) (baseAmount : ℤ) (cooldownRow : Option ℚ)
        (nowMs m : ℚ),
      workExec userId profile { settings with xp_multiplier := m } inventory
        baseAmount cooldownRow nowMs =
        workExec userId profile settings inventory baseAmount cooldownRow nowMs) ∧
    (∀ (robberId targetId : String) (targetIsBot : Bool)
        (robberProfile targetProfile : Profile) (settings : ServerSettings)
        (robberInventory targetInventory : List InvEntry) (cooldownRow : Option ℚ)
        (nowMs successRoll percentageRoll m : ℚ),
      robExec robberId targetId targetIsBot robberProfile targetProfile
        { settings with xp_multiplier := m } robberInventory targetInventory
        cooldownRow nowMs successRoll percentageRoll =
        robExec robberId targetId targetIsBot robberProfile targetProfile settings
          robberInventory targetInventory cooldownRow nowMs successRoll
          percentageRoll) ∧
    (∀ (userId : String) (profile : Profile) (settings : ServerSettings)
        (cooldownRow : Option ℚ) (nowMs : ℚ) (out : DailyOutcome),
      dailyModular userId profile settings cooldownRow nowMs = Except.ok out →
      out.profile.xp = profile.xp + 10) ∧
    (∀ (userId : String) (profile : Profile) (settings : ServerSettings)
        (inventory : List InvEntry) (baseAmount : ℤ) (cooldownRow : Option ℚ)
        (nowMs : ℚ) (out : WorkOutcome),
      workExec userId profile settings inventory baseAmount cooldownRow nowMs =
        Except.ok out →
      out.profile.xp = profile.xp + Int.floor ((out.totalAmount : ℚ) / 10)) ∧
    (∀ (userId : String) (profile : Profile) (inventory : List InvEntry)
        (itemId : String) (entry : InvEntry) (value : ℤ) (command : String)
        (out : UseOutcome),
      inventory.find? (fun e => e.items.id == itemId) = some entry →
      entry.items.effect = some (Effect.consumable "xp_grant" value command) →
      inventoryUse userId profile inventory itemId = Except.ok out →
      out.profile.xp = profile.xp + value) := by
  refine ⟨?_, ?_, ?_, ?_, ?_, ?_, ?_⟩
  · intro userId profile settings cooldownRow nowMs m
    cases settings
    rfl
  · intro userId profile settings cooldownRow nowMs m
    cases settings
    rfl
  · intro userId profile settings inventory baseAmount cooldownRow nowMs m
    cases settings
    rfl
  · intro robberId targetId targetIsBot robberProfile targetProfile settings
      robberInventory targetInventory cooldownRow nowMs successRoll percentageRoll m
    cases settings
    rfl
  · intro userId profile settings cooldownRow nowMs out h
    obtain ⟨streak, rfl⟩ :=
      dailyModular_ok_inv userId profile settings cooldownRow nowMs out h
    rfl
  · intro userId profile settings inventory baseAmount cooldownRow nowMs out h
    rw [workExec_ok_inv userId profile settings inventory baseAmount cooldownRow
      nowMs out h]
    rfl
  · intro userId profile inventory itemId entry value command out hfind heff h
    simp only [inventoryUse, hfind, heff] at h
    have hout := (Except.ok.inj h).symm
    subst hout
    simp

end EconomyBot
